import Mathlib

/-!
Verification of the sensor-ingestion service in `src/server/index.ts`
(together with `src/server/types.ts`).

The service is a single HTTP route handler plus one pure validation
function.  We embed the JavaScript values the handler manipulates as an
inductive type `JsVal`, with JS numbers modelled symbolically
(`JsNum`: NaN, the two infinities, and finite values as rationals —
only comparisons against the constants -50, 150 and 0 occur in the
source, and those are exact on every finite double).  Property access,
which in JavaScript throws a TypeError on `null`/`undefined` and
returns `undefined` for a missing key otherwise, is `getProp` returning
`Except Unit JsVal`.  Fallible JS computation is `Except Unit`.

The route handler (lines 60-117 of index.ts) is embedded as `ingest`,
explicitly parameterised by its two external collaborators: the auth
verification outcome (`verify : String → Bool`, the result of
`supabaseClient.auth.getUser`) and the storage insert outcome
(`insertError : Option String`), plus the wall clock reading
(`now : String`, the value of `new Date().toISOString()`).  Calls to
the collaborators are recorded in an event trace so that claims about
"no call made" are statable.
-/

/-- A JavaScript number, modelled symbolically: NaN, the infinities,
and finite values as rationals.  The source only compares numbers with
the finite constants -50, 150 and 0, and every finite IEEE double is a
rational, so this is exact for the operations used. -/
inductive JsNum where
  | nan : JsNum
  | posInf : JsNum
  | negInf : JsNum
  | finite (q : ℚ) : JsNum
deriving DecidableEq, Repr

/-- JS `x < c` for a number `x` and a finite constant `c`
(comparisons involving NaN are false). -/
def JsNum.ltQ : JsNum → ℚ → Bool
  | .nan, _ => false
  | .posInf, _ => false
  | .negInf, _ => true
  | .finite q, c => decide (q < c)

/-- JS `x > c` for a number `x` and a finite constant `c`
(comparisons involving NaN are false). -/
def JsNum.gtQ : JsNum → ℚ → Bool
  | .nan, _ => false
  | .posInf, _ => true
  | .negInf, _ => false
  | .finite q, c => decide (c < q)

/-- Truthiness of a JS number: `0` and `NaN` are falsy. -/
def JsNum.isTruthy : JsNum → Bool
  | .nan => false
  | .posInf => true
  | .negInf => true
  | .finite q => decide (q ≠ 0)

/-- A JavaScript value as it can appear in a parsed JSON request body
(plus `undefined`, which property access on a missing key produces).
Objects are association lists of fields. -/
inductive JsVal where
  | undefined : JsVal
  | null : JsVal
  | bool (b : Bool) : JsVal
  | num (n : JsNum) : JsVal
  | str (s : String) : JsVal
  | obj (fields : List (String × JsVal)) : JsVal
deriving Repr

/-- `typeof v === 'string'`. -/
def JsVal.isString : JsVal → Bool
  | .str _ => true
  | _ => false

/-- `typeof v === 'number'`. -/
def JsVal.isNumber : JsVal → Bool
  | .num _ => true
  | _ => false

/-- `isNaN(v)` as used in the source, where the argument is already
known to satisfy `typeof v === 'number'`. -/
def JsVal.jsIsNaN : JsVal → Bool
  | .num .nan => true
  | _ => false

/-- JS truthiness of a value. -/
def JsVal.truthy : JsVal → Bool
  | .undefined => false
  | .null => false
  | .bool b => b
  | .num n => n.isTruthy
  | .str s => decide (s ≠ "")
  | .obj _ => true

/-- Whether a value is `null` or `undefined` (property access on these
throws a TypeError). -/
def JsVal.isNullish : JsVal → Bool
  | .null => true
  | .undefined => true
  | _ => false

/-- Field lookup on an object value; a missing key reads as
`undefined`, and reading a field of a non-object non-nullish value
(number, string, boolean) also gives `undefined` for the field names
the source uses. -/
def JsVal.propOf : JsVal → String → JsVal
  | .obj fields, k => (fields.lookup k).getD .undefined
  | _, _ => .undefined

/-- JS property access `v.k`: throws (TypeError) exactly when `v` is
`null` or `undefined`, otherwise yields `propOf`. -/
def JsVal.getProp (v : JsVal) (k : String) : Except Unit JsVal :=
  if v.isNullish then .error () else .ok (v.propOf k)

/-- `v < c` as the source applies it to an already-type-checked
numeric field value (`sensorData.field! < c`). -/
def JsVal.ltQ : JsVal → ℚ → Bool
  | .num n, c => n.ltQ c
  | _, _ => false

/-- `v > c` as the source applies it to an already-type-checked
numeric field value (`sensorData.field! > c`). -/
def JsVal.gtQ : JsVal → ℚ → Bool
  | .num n, c => n.gtQ c
  | _, _ => false

/-- The fixed field order of the numeric-field loop
(index.ts line 34). -/
def numericFields : List String :=
  ["temperature", "pressure", "vibration", "energy_consumption"]

/-- The loop of index.ts lines 35-40: return `Invalid <field>` for the
first field that is not a (non-NaN) number, else fall through. -/
def checkNumericFields (d : JsVal) : List String → Option String
  | [] => none
  | field :: rest =>
    let value := d.propOf field
    if !value.isNumber || value.jsIsNaN then some ("Invalid " ++ field)
    else checkNumericFields d rest

/-- The body of `validateSensorData` (index.ts lines 30-56) on a
non-nullish input, where every property access returns normally. -/
def validateFields (d : JsVal) : Option String :=
  if !(d.propOf "asset_id").truthy || !(d.propOf "asset_id").isString then
    some "Invalid asset_id"
  else
    match checkNumericFields d numericFields with
    | some msg => some msg
    | none =>
      if (d.propOf "temperature").ltQ (-50) || (d.propOf "temperature").gtQ 150 then
        some "Temperature must be between -50 and 150"
      else if (d.propOf "pressure").ltQ 0 then
        some "Pressure must be non-negative"
      else if (d.propOf "vibration").ltQ 0 then
        some "Vibration must be non-negative"
      else if (d.propOf "energy_consumption").ltQ 0 then
        some "Energy consumption must be non-negative"
      else
        none

/-- `validateSensorData` (index.ts lines 27-57).  The very first
statement reads `sensorData.asset_id`, so a `null` or `undefined`
argument throws a TypeError before any check runs; on every other
value the function is the pure check chain `validateFields`.
`.ok none` is the JS return value `null` (validation passed);
`.ok (some msg)` is a returned error string; `.error ()` is a thrown
exception. -/
def validateSensorData (data : JsVal) : Except Unit (Option String) :=
  if data.isNullish then .error () else .ok (validateFields data)

/-- The request data the handler reads: the `Authorization` header
(`None` when absent), the optional `:id` path parameter
(`SensorParams`), the optional `timestamp` query parameter
(`SensorQuery`), and the parsed JSON body. -/
structure IngestRequest where
  authorization : Option String
  id : Option String
  timestamp : Option String
  body : JsVal

/-- The row object passed to
`supabaseClient.from('sensor_readings').insert({...})`
(index.ts lines 93-100). -/
structure InsertRow where
  asset_id : JsVal
  temperature : JsVal
  pressure : JsVal
  vibration : JsVal
  energy_consumption : JsVal
  timestamp : String

/-- An outbound call made by the handler to an external collaborator:
a token-verification call to the auth provider, or an insert call to
the storage provider. -/
inductive Event where
  | verifyCall (token : String) : Event
  | insertCall (row : InsertRow) : Event

/-- Whether an event is an insert call. -/
def Event.isInsert : Event → Bool
  | .insertCall _ => true
  | _ => false

/-- An HTTP response body: `{ error: ... }` or `{ message: ... }`. -/
inductive RespBody where
  | errorResp (error : String) : RespBody
  | successResp (message : String) : RespBody

/-- The observable outcome of one request: HTTP status, JSON body, and
the trace of outbound collaborator calls, in order. -/
structure HandlerResult where
  status : Nat
  body : RespBody
  events : List Event

/-- JS `s.startsWith(p)`, on the character lists of the strings. -/
def jsStartsWith (s p : String) : Bool :=
  p.data.isPrefixOf s.data

/-- JS `s.split(sep)` for a one-character separator, on character
lists: splitting the empty string gives `[""]`, and adjacent or
trailing separators produce empty segments, exactly as in JS. -/
def splitChars (sep : Char) : List Char → List (List Char)
  | [] => [[]]
  | c :: rest =>
    let r := splitChars sep rest
    if c = sep then [] :: r
    else
      match r with
      | [] => [[c]]
      | seg :: segs => (c :: seg) :: segs

/-- JS `s.split(sep)` for a one-character separator. -/
def jsSplit (s : String) (sep : Char) : List String :=
  (splitChars sep s.data).map List.asString

/-- `authHeader.split(' ')[1]` (index.ts line 74): the token is the
segment between the first and second space.  JS `split(' ')` on a
string that starts with `Bearer ` always has an index 1, so the
default is never used on the path where this is evaluated. -/
def bearerToken (authHeader : String) : String :=
  (jsSplit authHeader ' ').getD 1 ""

/-- `req.query.timestamp || new Date().toISOString()` (index.ts
line 99): the JS `||` falls through to the clock not only when the
query parameter is absent but also when it is the empty string, the
only falsy string. -/
def resolvedTimestamp (q : Option String) (now : String) : String :=
  match q with
  | some t => if t = "" then now else t
  | none => now

/-- The object literal passed to `.insert` (index.ts lines 93-100):
the five body fields read back from `req.body`, and the resolved
timestamp. -/
def builtRow (body : JsVal) (q : Option String) (now : String) : InsertRow :=
  { asset_id := body.propOf "asset_id"
    temperature := body.propOf "temperature"
    pressure := body.propOf "pressure"
    vibration := body.propOf "vibration"
    energy_consumption := body.propOf "energy_consumption"
    timestamp := resolvedTimestamp q now }

/-- The `app.post` route handler (index.ts lines 60-117), with the two
external collaborators supplied as parameters: `verify tok = true`
models `supabaseClient.auth.getUser(tok)` resolving a user with no
error, and `insertError` is the `error` field of the insert call
result (`some detail` models a storage failure).  `now` is the value
`new Date().toISOString()` would produce.  A thrown exception (the
only one reachable in this model is the TypeError from
`validateSensorData` on a nullish body) is caught by the
`try`/`catch` and mapped to 500 `Internal server error`.
The path parameter `req.id` is never read. -/
def ingest (verify : String → Bool) (insertError : Option String)
    (now : String) (req : IngestRequest) : HandlerResult :=
  match req.authorization with
  | none =>
    { status := 401, body := .errorResp "Missing or invalid Authorization header",
      events := [] }
  | some authHeader =>
    if !jsStartsWith authHeader "Bearer " then
      { status := 401, body := .errorResp "Missing or invalid Authorization header",
        events := [] }
    else
      let token := bearerToken authHeader
      if !verify token then
        { status := 401, body := .errorResp "Invalid token",
          events := [.verifyCall token] }
      else
        match validateSensorData req.body with
        | .error _ =>
          { status := 500, body := .errorResp "Internal server error",
            events := [.verifyCall token] }
        | .ok (some validationError) =>
          { status := 400, body := .errorResp validationError,
            events := [.verifyCall token] }
        | .ok none =>
          let row := builtRow req.body req.timestamp now
          match insertError with
          | some _ =>
            { status := 500, body := .errorResp "Failed to store sensor reading",
              events := [.verifyCall token, .insertCall row] }
          | none =>
            { status := 200, body := .successResp "Sensor reading stored successfully",
              events := [.verifyCall token, .insertCall row] }

instance {A B : Type} [DecidableEq A] [DecidableEq B] : DecidableEq (Except A B) := fun a b =>
  match a, b with
  | .ok x, .ok y =>
    if h : x = y then .isTrue (by rw [h]) else .isFalse (by intro hc; cases hc; exact h rfl)
  | .error x, .error y =>
    if h : x = y then .isTrue (by rw [h]) else .isFalse (by intro hc; cases hc; exact h rfl)
  | .ok _, .error _ => .isFalse (by intro hc; cases hc)
  | .error _, .ok _ => .isFalse (by intro hc; cases hc)

/-- The asset check condition of index.ts line 30,
`!sensorData.asset_id || typeof sensorData.asset_id !== 'string'`. -/
def assetIdRejected (d : JsVal) : Bool :=
  !(d.propOf "asset_id").truthy || !(d.propOf "asset_id").isString

/-- The complete set of results `validateSensorData` can return
without throwing: `none` (the JS `null`) or one of the nine error
strings occurring in its body. -/
def allowedResults : List (Option String) :=
  [none, some "Invalid asset_id", some "Invalid temperature", some "Invalid pressure",
   some "Invalid vibration", some "Invalid energy_consumption",
   some "Temperature must be between -50 and 150", some "Pressure must be non-negative",
   some "Vibration must be non-negative", some "Energy consumption must be non-negative"]

/-- The results reachable once the asset check has passed. -/
def postAssetResults : List (Option String) :=
  [none, some "Invalid temperature", some "Invalid pressure",
   some "Invalid vibration", some "Invalid energy_consumption",
   some "Temperature must be between -50 and 150", some "Pressure must be non-negative",
   some "Vibration must be non-negative", some "Energy consumption must be non-negative"]

/-- Follows the claim wording: the first of the four numeric fields,
in the fixed order, that is missing, not a number, or NaN. -/
def specFirstOffendingField (d : JsVal) : Option String :=
  numericFields.find? fun f => !(d.propOf f).isNumber || (d.propOf f).jsIsNaN

/-- Follows the claim wording: the range checks applied in the fixed
order temperature ∈ [-50, 150], pressure ≥ 0, vibration ≥ 0,
energy_consumption ≥ 0, with the first violated constraint
determining the message and no violation meaning acceptance. -/
def specRangeOutcome (d : JsVal) : Option String :=
  if (d.propOf "temperature").ltQ (-50) || (d.propOf "temperature").gtQ 150 then
    some "Temperature must be between -50 and 150"
  else if (d.propOf "pressure").ltQ 0 then
    some "Pressure must be non-negative"
  else if (d.propOf "vibration").ltQ 0 then
    some "Vibration must be non-negative"
  else if (d.propOf "energy_consumption").ltQ 0 then
    some "Energy consumption must be non-negative"
  else
    none

/-- A field value that is either positive infinity or a non-negative
finite number. -/
def nonNegOrPosInf (v : JsVal) : Prop :=
  v = .num .posInf ∨ ∃ q : ℚ, 0 ≤ q ∧ v = .num (.finite q)

/-- A fully valid payload (the example of spec section 8, with an
integer vibration so that all numbers are integral). -/
def goodBody : JsVal :=
  .obj [("asset_id", .str "A1"), ("temperature", .num (.finite 25)),
        ("pressure", .num (.finite 10)), ("vibration", .num (.finite 1)),
        ("energy_consumption", .num (.finite 100))]

/-- `goodBody` with the `asset_id` replaced by the empty string. -/
def emptyAssetBody : JsVal :=
  .obj [("asset_id", .str ""), ("temperature", .num (.finite 25)),
        ("pressure", .num (.finite 10)), ("vibration", .num (.finite 1)),
        ("energy_consumption", .num (.finite 100))]

/-- A payload with no `asset_id` and a non-numeric temperature. -/
def missingAssetBadTempBody : JsVal :=
  .obj [("temperature", .str "x")]

/-- A payload with a numeric (hence non-string) `asset_id` and an
out-of-range temperature; all four numeric fields are well-formed
numbers. -/
def numericAssetHotTempBody : JsVal :=
  .obj [("asset_id", .num (.finite 5)), ("temperature", .num (.finite 200)),
        ("pressure", .num (.finite 0)), ("vibration", .num (.finite 0)),
        ("energy_consumption", .num (.finite 0))]

/-- A payload sitting exactly on the lower boundaries: temperature
-50, the other three fields 0. -/
def boundaryLowBody : JsVal :=
  .obj [("asset_id", .str "A1"), ("temperature", .num (.finite (-50))),
        ("pressure", .num (.finite 0)), ("vibration", .num (.finite 0)),
        ("energy_consumption", .num (.finite 0))]

/-- A payload sitting exactly on the upper temperature boundary 150,
the other three fields 0. -/
def boundaryHighBody : JsVal :=
  .obj [("asset_id", .str "A1"), ("temperature", .num (.finite 150)),
        ("pressure", .num (.finite 0)), ("vibration", .num (.finite 0)),
        ("energy_consumption", .num (.finite 0))]

/-- A payload with a negative pressure and everything else valid. -/
def negPressureBody : JsVal :=
  .obj [("asset_id", .str "A1"), ("temperature", .num (.finite 0)),
        ("pressure", .num (.finite (-1))), ("vibration", .num (.finite 0)),
        ("energy_consumption", .num (.finite 0))]

/-- A payload with an infinite pressure and everything else valid. -/
def infPressureBody : JsVal :=
  .obj [("asset_id", .str "A1"), ("temperature", .num (.finite 25)),
        ("pressure", .num .posInf), ("vibration", .num (.finite 0)),
        ("energy_consumption", .num (.finite 0))]

/-- A payload whose `asset_id` passes the check but whose temperature
is not a number. -/
def assetOkBadTempBody : JsVal :=
  .obj [("asset_id", .str "A1"), ("temperature", .str "x")]

/-- A fully valid request whose `timestamp` query parameter is the
empty string. -/
def emptyTsRequest : IngestRequest :=
  { authorization := some "Bearer tok", id := none, timestamp := some "", body := goodBody }

/-- A fully valid request with a non-empty `timestamp` query
parameter. -/
def plainTsRequest : IngestRequest :=
  { authorization := some "Bearer tok", id := none, timestamp := some "T1", body := goodBody }

/-- The numeric-field loop computes `Invalid <f>` for the first field
`f` of the list that fails the number check. -/
theorem checkNumericFields_eq_find (d : JsVal) (l : List String) :
    checkNumericFields d l =
      (l.find? fun f => !(d.propOf f).isNumber || (d.propOf f).jsIsNaN).map
        (fun f => "Invalid " ++ f) := by
  induction l with
  | nil => rfl
  | cons f rest ih =>
    by_cases h : (!(d.propOf f).isNumber || (d.propOf f).jsIsNaN) = true
    · simp [checkNumericFields, List.find?, h]
    · simp only [Bool.not_eq_true] at h
      simp [checkNumericFields, List.find?, h, ih]

/-- On the concrete field list, the loop returns one of five results. -/
theorem checkNumericFields_mem (d : JsVal) :
    checkNumericFields d numericFields ∈
      [none, some "Invalid temperature", some "Invalid pressure",
       some "Invalid vibration", some "Invalid energy_consumption"] := by
  simp only [numericFields, checkNumericFields]
  split_ifs <;> simp

/-- A failed asset check short-circuits the whole validation. -/
theorem validateFields_assetFail (d : JsVal) (h : assetIdRejected d = true) :
    validateFields d = some "Invalid asset_id" := by
  unfold assetIdRejected at h
  simp [validateFields, h]

/-- After a passed asset check, the result is one of the nine
post-asset results. -/
theorem validateFields_assetOk_mem (d : JsVal) (h : assetIdRejected d = false) :
    validateFields d ∈ postAssetResults := by
  unfold assetIdRejected at h
  unfold validateFields
  rw [h]
  simp only [Bool.false_eq_true, if_false]
  rcases hm : checkNumericFields d numericFields with _ | msg
  · simp only []
    split_ifs <;> simp [postAssetResults]
  · have := checkNumericFields_mem d
    rw [hm] at this
    simp only [List.mem_cons, List.mem_singleton] at this
    rcases this with h1 | h1 | h1 | h1 | h1 <;> simp_all [postAssetResults]

/-- Every run of the checks lands in the ten-element result list. -/
theorem validateFields_mem (d : JsVal) : validateFields d ∈ allowedResults := by
  cases h : assetIdRejected d with
  | true =>
    rw [validateFields_assetFail d h]
    simp [allowedResults]
  | false =>
    have := validateFields_assetOk_mem d h
    simp only [postAssetResults, allowedResults, List.mem_cons, List.mem_singleton] at this ⊢
    tauto

/-- The asset check fires exactly on a non-string or empty-string
`asset_id` (the value read is `undefined` when the field is missing,
which is not a string). -/
theorem assetIdRejected_iff (d : JsVal) :
    assetIdRejected d = true ↔
      ((d.propOf "asset_id").isString = false ∨ d.propOf "asset_id" = .str "") := by
  unfold assetIdRejected
  cases hv : d.propOf "asset_id" <;>
    simp [JsVal.truthy, JsVal.isString]

/-- A passed asset check forces the input to be non-nullish: on `null`
and `undefined` every field reads as `undefined`, which is falsy. -/
theorem not_nullish_of_assetOk (d : JsVal) (h : assetIdRejected d = false) :
    d.isNullish = false := by
  cases d <;> simp_all [assetIdRejected, JsVal.propOf, JsVal.truthy, JsVal.isNullish]

/-- Inversion for a non-throwing validation run. -/
theorem validateSensorData_ok (d : JsVal) (r : Option String)
    (h : validateSensorData d = .ok r) :
    d.isNullish = false ∧ validateFields d = r := by
  unfold validateSensorData at h
  cases hn : d.isNullish with
  | true => rw [hn] at h; simp at h
  | false => rw [hn] at h; simp at h; exact ⟨rfl, h⟩

section IngestLemmas

variable (verify : String → Bool) (ie : Option String) (now : String) (req : IngestRequest)

/-- Missing header: immediate 401, no outbound call. -/
theorem ingest_noHeader (h : req.authorization = none) :
    ingest verify ie now req =
      ⟨401, .errorResp "Missing or invalid Authorization header", []⟩ := by
  obtain ⟨a, pid, ts, b⟩ := req
  cases h
  rfl

/-- Non-bearer header: immediate 401, no outbound call. -/
theorem ingest_badScheme (hdr : String) (hA : req.authorization = some hdr)
    (hB : jsStartsWith hdr "Bearer " = false) :
    ingest verify ie now req =
      ⟨401, .errorResp "Missing or invalid Authorization header", []⟩ := by
  obtain ⟨a, pid, ts, b⟩ := req
  cases hA
  simp [ingest, hB]

/-- Rejected token: 401, only the verification call happened. -/
theorem ingest_badToken (hdr : String) (hA : req.authorization = some hdr)
    (hB : jsStartsWith hdr "Bearer " = true)
    (hV : verify (bearerToken hdr) = false) :
    ingest verify ie now req =
      ⟨401, .errorResp "Invalid token", [.verifyCall (bearerToken hdr)]⟩ := by
  obtain ⟨a, pid, ts, b⟩ := req
  cases hA
  simp [ingest, hB, hV]

/-- Failed validation: 400 with the validation message, no insert. -/
theorem ingest_badPayload (hdr msg : String) (hA : req.authorization = some hdr)
    (hB : jsStartsWith hdr "Bearer " = true)
    (hV : verify (bearerToken hdr) = true)
    (hval : validateSensorData req.body = .ok (some msg)) :
    ingest verify ie now req =
      ⟨400, .errorResp msg, [.verifyCall (bearerToken hdr)]⟩ := by
  obtain ⟨a, pid, ts, b⟩ := req
  cases hA
  simp [ingest, hB, hV, hval]

/-- Success path through validation: whatever the storage outcome, the
trace is one verification call followed by one insert of the built
row. -/
theorem ingest_okPayload_events (hdr : String) (hA : req.authorization = some hdr)
    (hB : jsStartsWith hdr "Bearer " = true)
    (hV : verify (bearerToken hdr) = true)
    (hval : validateSensorData req.body = .ok none) :
    (ingest verify ie now req).events =
      [.verifyCall (bearerToken hdr),
       .insertCall (builtRow req.body req.timestamp now)] := by
  obtain ⟨a, pid, ts, b⟩ := req
  cases hA
  cases ie <;> simp [ingest, hB, hV, hval]

/-- Storage failure on the success path: 500 with the fixed message. -/
theorem ingest_insertFail (hdr e : String) (hA : req.authorization = some hdr)
    (hB : jsStartsWith hdr "Bearer " = true)
    (hV : verify (bearerToken hdr) = true)
    (hval : validateSensorData req.body = .ok none) :
    ingest verify (some e) now req =
      ⟨500, .errorResp "Failed to store sensor reading",
       [.verifyCall (bearerToken hdr),
        .insertCall (builtRow req.body req.timestamp now)]⟩ := by
  obtain ⟨a, pid, ts, b⟩ := req
  cases hA
  simp [ingest, hB, hV, hval]

end IngestLemmas


/-- Claim C10 (amended): `validateSensorData` is total and deterministic on
every input other than `null`/`undefined`: it returns, without throwing,
either `none` (the JS `null`) or one of the nine fixed error strings of
`allowedResults`.  (On `null` or `undefined` it throws, see the
counterexample; being a function of its argument, it is deterministic by
construction.) -/
theorem validate_total_results (d : JsVal) (h : d.isNullish = false) :
    ∃ r, validateSensorData d = Except.ok r ∧ r ∈ allowedResults :=
  ⟨validateFields d, by simp [validateSensorData, h], validateFields_mem d⟩

/-- Witness for claim C10 at the concrete non-nullish input `{}`. -/
theorem validate_total_results_witness :
    ∃ r, validateSensorData (JsVal.obj []) = Except.ok r ∧ r ∈ allowedResults :=
  validate_total_results (JsVal.obj []) rfl

/-- Counterexample to claim C10 as stated: on the input `null` the very
first property access throws a TypeError, so validation does not return
a value for every input of any shape. -/
theorem validate_throws_on_null_cex :
    validateSensorData JsVal.null = Except.error () := rfl

/-- Claim C2 (amended): validation returns `Invalid asset_id` if and only
if the asset_id is missing, not a string, or the empty string (the one
falsy string); when it is a non-empty string, validation proceeds past
the asset_id check. -/
theorem validate_invalid_assetId_iff (d : JsVal) (r : Option String)
    (h : validateSensorData d = Except.ok r) :
    r = some "Invalid asset_id" ↔
      ((d.propOf "asset_id").isString = false ∨ d.propOf "asset_id" = JsVal.str "") := by
  obtain ⟨hn, hr⟩ := validateSensorData_ok d r h
  subst hr
  cases hc : assetIdRejected d with
  | true =>
    rw [validateFields_assetFail d hc]
    exact iff_of_true rfl ((assetIdRejected_iff d).mp hc)
  | false =>
    have hmem := validateFields_assetOk_mem d hc
    constructor
    · intro he
      rw [he] at hmem
      exact absurd hmem (by decide)
    · intro hrhs
      have := (assetIdRejected_iff d).mpr hrhs
      rw [hc] at this
      simp at this

/-- Witness for claim C2 at a payload whose asset_id is the number 3. -/
theorem validate_invalid_assetId_iff_witness :
    ((some "Invalid asset_id" : Option String) = some "Invalid asset_id" ↔
      (((JsVal.obj [("asset_id", JsVal.num (JsNum.finite 3))]).propOf "asset_id").isString = false ∨
        (JsVal.obj [("asset_id", JsVal.num (JsNum.finite 3))]).propOf "asset_id" = JsVal.str "")) :=
  validate_invalid_assetId_iff _ _ (by decide)

/-- Counterexample to claim C2 as stated: an asset_id that is present and
is a string — the empty string — is nevertheless rejected with
`Invalid asset_id`, because line 30 tests JS falsiness before the type. -/
theorem validate_empty_assetId_cex :
    validateSensorData emptyAssetBody = Except.ok (some "Invalid asset_id") ∧
    (emptyAssetBody.propOf "asset_id").isString = true ∧
    emptyAssetBody.propOf "asset_id" = JsVal.str "" :=
  ⟨rfl, rfl, rfl⟩

/-- Claim C5: for every request whose Authorization header is absent or
does not start with `Bearer `, the handler responds 401, emits no
outbound call at all (in particular the auth provider verify operation
is never invoked), and the outcome is independent of the verifier. -/
theorem ingest_malformed_auth_401_no_verify (verify verify2 : String → Bool)
    (ie : Option String) (now : String) (req : IngestRequest)
    (h : ∀ a, req.authorization = some a → jsStartsWith a "Bearer " = false) :
    (ingest verify ie now req).status = 401 ∧
    (ingest verify ie now req).events = [] ∧
    ingest verify ie now req = ingest verify2 ie now req := by
  cases hA : req.authorization with
  | none =>
    rw [ingest_noHeader verify ie now req hA, ingest_noHeader verify2 ie now req hA]
    exact ⟨rfl, rfl, rfl⟩
  | some a =>
    have hB := h a hA
    rw [ingest_badScheme verify ie now req a hA hB,
        ingest_badScheme verify2 ie now req a hA hB]
    exact ⟨rfl, rfl, rfl⟩

/-- Witness for claim C5 at a concrete request with a `Token ` scheme. -/
theorem ingest_malformed_auth_401_no_verify_witness :
    (ingest (fun _ => true) none "N" ⟨some "Token x", none, none, goodBody⟩).status = 401 ∧
    (ingest (fun _ => true) none "N" ⟨some "Token x", none, none, goodBody⟩).events = [] ∧
    ingest (fun _ => true) none "N" ⟨some "Token x", none, none, goodBody⟩ =
      ingest (fun _ => false) none "N" ⟨some "Token x", none, none, goodBody⟩ :=
  ingest_malformed_auth_401_no_verify _ _ _ _ _
    (fun a ha => by injection ha with h2; rw [← h2]; decide)

/-- Claim C6: for every request carrying a bearer-scheme header whose
token the auth provider rejects, the handler responds 401 and no insert
call is issued to the storage provider. -/
theorem ingest_rejected_token_401_no_insert (verify : String → Bool)
    (ie : Option String) (now hdr : String) (req : IngestRequest)
    (hA : req.authorization = some hdr)
    (hB : jsStartsWith hdr "Bearer " = true)
    (hV : verify (bearerToken hdr) = false) :
    (ingest verify ie now req).status = 401 ∧
    (ingest verify ie now req).events.filter Event.isInsert = [] := by
  rw [ingest_badToken verify ie now req hdr hA hB hV]
  exact ⟨rfl, rfl⟩

/-- Witness for claim C6 at a concrete request whose token the verifier
rejects. -/
theorem ingest_rejected_token_401_no_insert_witness :
    (ingest (fun _ => false) none "N" ⟨some "Bearer bad", none, none, goodBody⟩).status = 401 ∧
    (ingest (fun _ => false) none "N"
      ⟨some "Bearer bad", none, none, goodBody⟩).events.filter Event.isInsert = [] :=
  ingest_rejected_token_401_no_insert _ _ _ "Bearer bad" _ rfl (by decide) rfl

/-- Claim C7: when the storage insert call returns an error, the handler
responds 500 with the fixed message `Failed to store sensor reading`,
and the whole response is independent of the provider error detail, so
that detail appears nowhere in the response body. -/
theorem ingest_insert_failure_500_fixed_message (verify : String → Bool)
    (now : String) (req : IngestRequest) (hdr e e2 : String)
    (hA : req.authorization = some hdr)
    (hB : jsStartsWith hdr "Bearer " = true)
    (hV : verify (bearerToken hdr) = true)
    (hval : validateSensorData req.body = Except.ok none) :
    (ingest verify (some e) now req).status = 500 ∧
    (ingest verify (some e) now req).body =
      RespBody.errorResp "Failed to store sensor reading" ∧
    ingest verify (some e) now req = ingest verify (some e2) now req := by
  rw [ingest_insertFail verify now req hdr e hA hB hV hval,
      ingest_insertFail verify now req hdr e2 hA hB hV hval]
  exact ⟨rfl, rfl, rfl⟩

/-- Witness for claim C7 at a concrete request and two distinct error
details. -/
theorem ingest_insert_failure_500_fixed_message_witness :
    (ingest (fun _ => true) (some "db down") "N"
      ⟨some "Bearer tok", none, none, goodBody⟩).status = 500 ∧
    (ingest (fun _ => true) (some "db down") "N"
      ⟨some "Bearer tok", none, none, goodBody⟩).body =
      RespBody.errorResp "Failed to store sensor reading" ∧
    ingest (fun _ => true) (some "db down") "N" ⟨some "Bearer tok", none, none, goodBody⟩ =
      ingest (fun _ => true) (some "other detail") "N"
        ⟨some "Bearer tok", none, none, goodBody⟩ :=
  ingest_insert_failure_500_fixed_message _ _ _ "Bearer tok" "db down" "other detail"
    rfl (by decide) rfl (by decide)

/-- Claim C8: two requests identical except for the optional path
parameter id produce the same result — same status, same body, and the
same outbound calls including any insert.  The handler never reads the
path parameter. -/
theorem ingest_ignores_path_id (verify : String → Bool) (ie : Option String)
    (now : String) (req : IngestRequest) (id1 id2 : Option String) :
    ingest verify ie now { req with id := id1 } =
      ingest verify ie now { req with id := id2 } := rfl

/-- Claim C3 (amended): for every payload whose asset_id passes the asset
check and in which at least one of temperature, pressure, vibration,
energy_consumption is missing, not a number, or NaN, validation fails
with `Invalid <field>` naming the first offending field in the fixed
order, and the service responds 400 with that message and performs no
insert.  (Without the asset_id premise the claim fails, see the
counterexample: the asset check runs first.) -/
theorem validate_first_offending_numeric_field (d : JsVal) (f : String)
    (verify : String → Bool) (ie : Option String) (now hdr : String)
    (pid ts : Option String)
    (hA : assetIdRejected d = false)
    (hf : specFirstOffendingField d = some f)
    (hB : jsStartsWith hdr "Bearer " = true)
    (hV : verify (bearerToken hdr) = true) :
    validateSensorData d = Except.ok (some ("Invalid " ++ f)) ∧
    ingest verify ie now ⟨some hdr, pid, ts, d⟩ =
      ⟨400, RespBody.errorResp ("Invalid " ++ f), [.verifyCall (bearerToken hdr)]⟩ := by
  have hn := not_nullish_of_assetOk d hA
  have hchk : checkNumericFields d numericFields = some ("Invalid " ++ f) := by
    rw [checkNumericFields_eq_find]
    unfold specFirstOffendingField at hf
    rw [hf]
    rfl
  have hfields : validateFields d = some ("Invalid " ++ f) := by
    unfold validateFields
    unfold assetIdRejected at hA
    rw [hA, hchk]
    simp
  have hvalidate : validateSensorData d = Except.ok (some ("Invalid " ++ f)) := by
    simp [validateSensorData, hn, hfields]
  exact ⟨hvalidate,
    ingest_badPayload verify ie now ⟨some hdr, pid, ts, d⟩ hdr ("Invalid " ++ f)
      rfl hB hV hvalidate⟩

/-- Witness for claim C3 at a payload with a valid asset_id and a string
temperature. -/
theorem validate_first_offending_numeric_field_witness :
    validateSensorData assetOkBadTempBody = Except.ok (some "Invalid temperature") ∧
    ingest (fun _ => true) none "N" ⟨some "Bearer tok", none, none, assetOkBadTempBody⟩ =
      ⟨400, RespBody.errorResp "Invalid temperature", [.verifyCall "tok"]⟩ :=
  validate_first_offending_numeric_field assetOkBadTempBody "temperature"
    (fun _ => true) none "N" "Bearer tok" none none rfl rfl (by decide) rfl

/-- Counterexample to claim C3 as stated: in a payload with no asset_id
and a non-numeric temperature, the first offending numeric field is
temperature, yet validation reports `Invalid asset_id`. -/
theorem validate_numeric_preempted_by_assetId_cex :
    specFirstOffendingField missingAssetBadTempBody = some "temperature" ∧
    validateSensorData missingAssetBadTempBody = Except.ok (some "Invalid asset_id") ∧
    (some "Invalid asset_id" : Option String) ≠ some "Invalid temperature" :=
  ⟨rfl, rfl, by decide⟩

/-- Claim C4 (amended): for every payload whose asset_id passes the asset
check and whose four fields are all well-formed numbers, the result is
exactly the range checks applied in the fixed order — temperature in
[-50, 150], then pressure, vibration, energy_consumption non-negative —
with the first violated constraint determining the message, and the
boundary payloads (temperature -50 or 150, the other fields 0) are
accepted.  (Without the asset_id premise the claim fails, see the
counterexample.) -/
theorem validate_range_checks_order (d : JsVal)
    (hA : assetIdRejected d = false)
    (hN : checkNumericFields d numericFields = none) :
    validateSensorData d = Except.ok (specRangeOutcome d) ∧
    validateSensorData boundaryLowBody = Except.ok none ∧
    validateSensorData boundaryHighBody = Except.ok none := by
  have hn := not_nullish_of_assetOk d hA
  have hfields : validateFields d = specRangeOutcome d := by
    unfold validateFields specRangeOutcome
    unfold assetIdRejected at hA
    rw [hA, hN]
    simp
  exact ⟨by simp [validateSensorData, hn, hfields], by decide, by decide⟩

/-- Witness for claim C4 at a payload whose only violation is a negative
pressure. -/
theorem validate_range_checks_order_witness :
    validateSensorData negPressureBody = Except.ok (specRangeOutcome negPressureBody) ∧
    validateSensorData boundaryLowBody = Except.ok none ∧
    validateSensorData boundaryHighBody = Except.ok none :=
  validate_range_checks_order negPressureBody rfl (by decide)

/-- Counterexample to claim C4 as stated: a payload whose four fields are
all numeric and whose temperature violates the range first, but whose
asset_id is a number, yields `Invalid asset_id` rather than the range
message. -/
theorem validate_range_preempted_by_assetId_cex :
    ((numericAssetHotTempBody.propOf "temperature").isNumber = true ∧
     (numericAssetHotTempBody.propOf "pressure").isNumber = true ∧
     (numericAssetHotTempBody.propOf "vibration").isNumber = true ∧
     (numericAssetHotTempBody.propOf "energy_consumption").isNumber = true) ∧
    (numericAssetHotTempBody.propOf "temperature").gtQ 150 = true ∧
    validateSensorData numericAssetHotTempBody = Except.ok (some "Invalid asset_id") ∧
    (some "Invalid asset_id" : Option String) ≠
      some "Temperature must be between -50 and 150" := by
  refine ⟨⟨rfl, rfl, rfl, rfl⟩, by decide, rfl, by decide⟩

/-- A field value that is positive infinity or a non-negative finite
number is a non-NaN number and passes the `< 0` range check. -/
theorem nonNegOrPosInf_checks (v : JsVal) (h : nonNegOrPosInf v) :
    v.isNumber = true ∧ v.jsIsNaN = false ∧ v.ltQ 0 = false := by
  rcases h with h | ⟨q, hq, h⟩
  · subst h
    exact ⟨rfl, rfl, rfl⟩
  · subst h
    refine ⟨rfl, rfl, ?_⟩
    simp only [JsVal.ltQ, JsNum.ltQ, decide_eq_false_iff_not, not_lt]
    exact hq

/-- Claim C9: for every payload whose asset_id passes the string check,
whose temperature is a finite number in [-50, 150], and whose pressure,
vibration and energy_consumption are each positive infinity or a
non-negative finite number (at least one being positive infinity),
`validateSensorData` returns null, and the handler forwards the
infinite field value unchanged in its single insert call. -/
theorem validate_accepts_infinite_nonneg_fields (d : JsVal) (qt : ℚ)
    (verify : String → Bool) (ie : Option String) (now hdr : String)
    (pid ts : Option String)
    (hA : assetIdRejected d = false)
    (ht : d.propOf "temperature" = .num (.finite qt))
    (ht1 : -50 ≤ qt) (ht2 : qt ≤ 150)
    (hp : nonNegOrPosInf (d.propOf "pressure"))
    (hv : nonNegOrPosInf (d.propOf "vibration"))
    (he : nonNegOrPosInf (d.propOf "energy_consumption"))
    (_hinf : d.propOf "pressure" = .num .posInf ∨ d.propOf "vibration" = .num .posInf ∨
      d.propOf "energy_consumption" = .num .posInf)
    (hB : jsStartsWith hdr "Bearer " = true)
    (hV : verify (bearerToken hdr) = true) :
    validateSensorData d = Except.ok none ∧
    (ingest verify ie now ⟨some hdr, pid, ts, d⟩).events =
      [.verifyCall (bearerToken hdr),
       .insertCall
         { asset_id := d.propOf "asset_id", temperature := d.propOf "temperature",
           pressure := d.propOf "pressure", vibration := d.propOf "vibration",
           energy_consumption := d.propOf "energy_consumption",
           timestamp := resolvedTimestamp ts now }] := by
  have hp3 := (nonNegOrPosInf_checks _ hp).2.2
  have hv3 := (nonNegOrPosInf_checks _ hv).2.2
  have he3 := (nonNegOrPosInf_checks _ he).2.2
  have hn := not_nullish_of_assetOk d hA
  have hchk : checkNumericFields d numericFields = none := by
    rcases hp with hp | ⟨qp, _, hp⟩ <;> rcases hv with hv | ⟨qv, _, hv⟩ <;>
      rcases he with he | ⟨qe, _, he⟩ <;>
        simp [checkNumericFields, numericFields, ht, hp, hv, he,
          JsVal.isNumber, JsVal.jsIsNaN]
  have htlt : (d.propOf "temperature").ltQ (-50) = false := by
    rw [ht]
    simp only [JsVal.ltQ, JsNum.ltQ, decide_eq_false_iff_not, not_lt]
    exact ht1
  have htgt : (d.propOf "temperature").gtQ 150 = false := by
    rw [ht]
    simp only [JsVal.gtQ, JsNum.gtQ, decide_eq_false_iff_not, not_lt]
    exact ht2
  have hfields : validateFields d = none := by
    unfold validateFields
    unfold assetIdRejected at hA
    rw [hA, hchk]
    simp [htlt, htgt, hp3, hv3, he3]
  have hval : validateSensorData d = Except.ok none := by
    simp [validateSensorData, hn, hfields]
  refine ⟨hval, ?_⟩
  rw [ingest_okPayload_events verify ie now ⟨some hdr, pid, ts, d⟩ hdr rfl hB hV hval]
  rfl

/-- Witness for claim C9 at a payload with an infinite pressure. -/
theorem validate_accepts_infinite_nonneg_fields_witness :
    validateSensorData infPressureBody = Except.ok none ∧
    (ingest (fun _ => true) none "NOW" ⟨some "Bearer tok", none, none, infPressureBody⟩).events =
      [.verifyCall "tok",
       .insertCall
         { asset_id := .str "A1", temperature := .num (.finite 25),
           pressure := .num .posInf, vibration := .num (.finite 0),
           energy_consumption := .num (.finite 0), timestamp := "NOW" }] :=
  validate_accepts_infinite_nonneg_fields infPressureBody 25 (fun _ => true) none "NOW"
    "Bearer tok" none none rfl rfl (by norm_num) (by norm_num)
    (Or.inl rfl) (Or.inr ⟨0, le_refl 0, rfl⟩) (Or.inr ⟨0, le_refl 0, rfl⟩)
    (Or.inl rfl) (by decide) rfl

/-- Claim C1 (amended): for every request with valid authentication and a
payload that passes validation, the handler issues exactly one insert
to sensor_readings whose asset_id, temperature, pressure, vibration and
energy_consumption equal the corresponding request-body fields, and
whose timestamp equals the timestamp query parameter when a non-empty
one is supplied, else the wall-clock ISO-8601 time: the JS `||` on
line 99 sends the empty-string query parameter to the clock fallback,
see the counterexample. -/
theorem ingest_success_single_insert (verify : String → Bool) (ie : Option String)
    (now hdr : String) (req : IngestRequest)
    (hA : req.authorization = some hdr)
    (hB : jsStartsWith hdr "Bearer " = true)
    (hV : verify (bearerToken hdr) = true)
    (hval : validateSensorData req.body = Except.ok none) :
    (ingest verify ie now req).events =
      [.verifyCall (bearerToken hdr),
       .insertCall
         { asset_id := req.body.propOf "asset_id",
           temperature := req.body.propOf "temperature",
           pressure := req.body.propOf "pressure",
           vibration := req.body.propOf "vibration",
           energy_consumption := req.body.propOf "energy_consumption",
           timestamp := match req.timestamp with
                        | some t => if t = "" then now else t
                        | none => now }] := by
  rw [ingest_okPayload_events verify ie now req hdr hA hB hV hval]
  rfl

/-- Witness for claim C1 at a concrete request carrying the timestamp
query parameter `T1`. -/
theorem ingest_success_single_insert_witness :
    (ingest (fun _ => true) none "NOW" plainTsRequest).events =
      [.verifyCall "tok",
       .insertCall
         { asset_id := .str "A1", temperature := .num (.finite 25),
           pressure := .num (.finite 10), vibration := .num (.finite 1),
           energy_consumption := .num (.finite 100), timestamp := "T1" }] :=
  ingest_success_single_insert (fun _ => true) none "NOW" "Bearer tok" plainTsRequest
    rfl (by decide) rfl (by decide)

/-- Counterexample to claim C1 as stated: a fully valid request that does
supply a timestamp query parameter — the empty string — gets the
wall-clock value in its inserted row, not the supplied parameter. -/
theorem ingest_empty_timestamp_query_cex :
    emptyTsRequest.timestamp = some "" ∧
    (ingest (fun _ => true) none "2025-01-01T00:00:00.000Z" emptyTsRequest).events =
      [.verifyCall "tok",
       .insertCall
         { asset_id := .str "A1", temperature := .num (.finite 25),
           pressure := .num (.finite 10), vibration := .num (.finite 1),
           energy_consumption := .num (.finite 100),
           timestamp := "2025-01-01T00:00:00.000Z" }] ∧
    ("2025-01-01T00:00:00.000Z" : String) ≠ "" :=
  ⟨rfl, rfl, by decide⟩
